import Mathlib

/-!
Verification of the Silentium signal-intelligence pipeline.

Shallow embedding of the audio-analysis core:
* TypeScript floating-point numbers are modelled as rationals (`ℚ`); all the
  arithmetic appearing in the embedded code (additions, multiplications,
  divisions, comparisons, `Math.min`/`Math.max`) is exact on the inputs
  considered here, so the rational model is faithful.
* Typed arrays (`Uint8Array`, `Float32Array`) are modelled as lists or as
  index functions together with an explicit length.
* Each detector class instance owns mutable fields; these are modelled by an
  explicit state record threaded through `detect`.
* `Math.random()` (the white-noise source of the generator) is modelled as a
  caller-supplied list of samples.

Sources embedded below:
* `src/services/audio/types/AudioAnalysisTypes.ts` (data model)
* `src/services/audio/detectors/FootstepDetector.ts`
* `src/services/audio/detectors/FrictionDetector.ts`
* `src/services/audio/detectors/GeneralDetector.ts`
* `src/hooks/useAudioAnalysis.ts` (per-frame arbitration)
* `src/services/audio/Equalizer.ts` (`NoiseGenerator`)
* `src/services/audio/spectral/SpectralAnalyzer.ts` (`AutoMaskingService`)
-/

namespace Silentium

/-- Noise event classification, from `AudioAnalysisTypes.NoiseEventType`. -/
inductive NoiseEventType
  | footstep
  | friction
  | voice
  | generic
  | unknown
deriving DecidableEq

/-- Frequency band of an event in Hz, from `NoiseEvent.frequencyRange`. -/
structure FrequencyRange where
  min : ℚ
  max : ℚ
deriving DecidableEq

/-- Optional debug payload of an event, from `NoiseEvent.details`. -/
structure EventDetails where
  energy : ℚ
  spectralFlux : Option ℚ
deriving DecidableEq

/-- Detected noise event, from `AudioAnalysisTypes.NoiseEvent`. -/
structure NoiseEvent where
  type : NoiseEventType
  timestamp : ℚ
  confidence : ℚ
  frequencyRange : FrequencyRange
  details : Option EventDetails
deriving DecidableEq

/-- Spectral feature vector, from `AudioAnalysisTypes.SpectralFeatures`. -/
structure SpectralFeatures where
  energy : ℚ
  lowBandEnergy : ℚ
  midBandEnergy : ℚ
  highBandEnergy : ℚ
  spectralFlux : ℚ
  spectralCentroid : ℚ
  peakFrequency : ℚ
deriving DecidableEq

/-- Detection configuration, from `AudioAnalysisTypes.DetectionConfig`.
Optional TypeScript fields become `Option ℚ`. -/
structure DetectionConfig where
  frictionThreshold : Option ℚ := none
  frictionSensitivity : ℚ
  footstepThreshold : Option ℚ := none
  footstepSensitivity : ℚ
  genericThreshold : Option ℚ := none
  genericSensitivity : ℚ
deriving DecidableEq

/-- Effective threshold used by all three detectors:
`const effectiveThreshold = baseThreshold / sensitivity`. -/
def effectiveThreshold (baseThreshold sensitivity : ℚ) : ℚ :=
  baseThreshold / sensitivity

/-! ## FootstepDetector -/

/-- Mutable state of a `FootstepDetector` instance. -/
structure FootstepState where
  lastDetectionTime : ℚ
deriving DecidableEq

namespace FootstepDetector

/-- Initial state of a fresh (or `reset()`) `FootstepDetector`. -/
def initState : FootstepState := { lastDetectionTime := 0 }

def cooldownMs : ℚ := 300

def BASE_FLUX_THRESHOLD : ℚ := 50.0

def BASE_LOW_ENERGY_THRESHOLD : ℚ := 80.0

/-- Embedding of `FootstepDetector.detect`.  Returns the emitted event (if
any) together with the updated instance state. -/
def detect (s : FootstepState) (features : SpectralFeatures) (timestamp : ℚ)
    (config : Option DetectionConfig) : Option NoiseEvent × FootstepState :=
  if timestamp - s.lastDetectionTime < cooldownMs then
    (none, s)
  else
    let sensitivity := (config.map DetectionConfig.footstepSensitivity).getD 1.0
    let baseFlux := BASE_FLUX_THRESHOLD
    let baseEnergy := (config.bind DetectionConfig.footstepThreshold).getD BASE_LOW_ENERGY_THRESHOLD
    let effectiveFluxThresh := effectiveThreshold baseFlux sensitivity
    let effectiveEnergyThresh := effectiveThreshold baseEnergy sensitivity
    let isTransient := features.spectralFlux > effectiveFluxThresh
    let isLowImpact := features.lowBandEnergy > effectiveEnergyThresh
    if isTransient ∧ isLowImpact then
      let ratio := features.spectralFlux / effectiveFluxThresh
      let confidence := min 1.0 (ratio * 0.5)
      (some { type := .footstep
              timestamp := timestamp
              confidence := confidence
              frequencyRange := { min := 20, max := 300 }
              details := some { energy := features.lowBandEnergy
                                spectralFlux := some features.spectralFlux } },
       { lastDetectionTime := timestamp })
    else
      (none, s)

end FootstepDetector

/-! ## FrictionDetector -/

/-- Mutable state of a `FrictionDetector` instance
(`continuousFrames` counter and the `_isDetecting` sustaining flag). -/
structure FrictionState where
  continuousFrames : ℕ
  isDetecting : Bool
deriving DecidableEq

namespace FrictionDetector

/-- Initial state of a fresh (or `reset()`) `FrictionDetector`. -/
def initState : FrictionState := { continuousFrames := 0, isDetecting := false }

def FRAMES_THRESHOLD : ℕ := 12

def BASE_ENERGY_THRESHOLD : ℚ := 40.0

/-- The sustained-noise metric `(lowBandEnergy * 0.5) + midBandEnergy`. -/
def frictionEnergy (features : SpectralFeatures) : ℚ :=
  features.lowBandEnergy * 0.5 + features.midBandEnergy

/-- Embedding of `FrictionDetector.detect`. -/
def detect (s : FrictionState) (features : SpectralFeatures) (timestamp : ℚ)
    (config : Option DetectionConfig) : Option NoiseEvent × FrictionState :=
  let sensitivity := (config.map DetectionConfig.frictionSensitivity).getD 1.0
  let baseThreshold := (config.bind DetectionConfig.frictionThreshold).getD BASE_ENERGY_THRESHOLD
  let effThreshold := effectiveThreshold baseThreshold sensitivity
  let energy := frictionEnergy features
  if energy > effThreshold then
    let continuousFrames := s.continuousFrames + 1
    if continuousFrames ≥ FRAMES_THRESHOLD then
      if s.isDetecting then
        (none, { continuousFrames := continuousFrames, isDetecting := true })
      else
        (some { type := .friction
                timestamp := timestamp
                confidence := min 1.0 (energy / effThreshold * 0.6)
                frequencyRange := { min := 100, max := 1000 }
                details := some { energy := energy, spectralFlux := none } },
         { continuousFrames := continuousFrames, isDetecting := true })
    else
      (none, { continuousFrames := continuousFrames, isDetecting := s.isDetecting })
  else
    (none, { continuousFrames := if s.continuousFrames > 0 then 0 else s.continuousFrames
             isDetecting := false })

/-- Iterated `detect` over a list of (features, timestamp) frames: the list of
per-call results, threading the instance state. -/
def detectRun (s : FrictionState) (config : Option DetectionConfig) :
    List (SpectralFeatures × ℚ) → List (Option NoiseEvent)
  | [] => []
  | frame :: rest =>
    let r := detect s frame.1 frame.2 config
    r.1 :: detectRun r.2 config rest

end FrictionDetector

/-! ## GeneralDetector -/

/-- Mutable state of a `GeneralDetector` instance. -/
structure GeneralState where
  lastDetectionTime : ℚ
deriving DecidableEq

namespace GeneralDetector

/-- Initial state of a fresh (or `reset()`) `GeneralDetector`. -/
def initState : GeneralState := { lastDetectionTime := 0 }

def cooldownMs : ℚ := 500

def BASE_ENERGY_THRESHOLD : ℚ := 5000.0

def BASE_FLUX_THRESHOLD : ℚ := 500.0

/-- Embedding of `GeneralDetector.detect`. -/
def detect (s : GeneralState) (features : SpectralFeatures) (timestamp : ℚ)
    (config : Option DetectionConfig) : Option NoiseEvent × GeneralState :=
  if timestamp - s.lastDetectionTime < cooldownMs then
    (none, s)
  else
    let sensitivity := (config.map DetectionConfig.genericSensitivity).getD 1.0
    let baseThreshold := (config.bind DetectionConfig.genericThreshold).getD BASE_ENERGY_THRESHOLD
    let fluxThreshold := BASE_FLUX_THRESHOLD / sensitivity
    let effThreshold := effectiveThreshold baseThreshold sensitivity
    if features.energy > effThreshold ∧ features.spectralFlux > fluxThreshold then
      let peakFreq := features.peakFrequency
      let bandwidth : ℚ := 200
      let minFreq := max 20 (peakFreq - bandwidth)
      let maxFreq := min 20000 (peakFreq + bandwidth)
      (some { type := .generic
              timestamp := timestamp
              confidence := min 1.0 (features.energy / effThreshold * 0.5)
              frequencyRange := { min := minFreq, max := maxFreq }
              details := some { energy := features.energy, spectralFlux := none } },
       { lastDetectionTime := timestamp })
    else
      (none, s)

end GeneralDetector

/-! ## Per-frame detection and arbitration (`useAudioAnalysis.analyze`) -/

/-- Conflict resolution between a footstep and a friction event detected in
the same frame: if both are present, keep only the higher-confidence one,
footstep winning ties (`footstep.confidence >= friction.confidence`). -/
def resolveConflict (footstep friction : Option NoiseEvent) :
    Option NoiseEvent × Option NoiseEvent :=
  match footstep, friction with
  | some fs, some fr =>
    if fs.confidence ≥ fr.confidence then (some fs, none) else (none, some fr)
  | _, _ => (footstep, friction)

/-- Combined detector states owned by the analysis loop. -/
structure AnalysisState where
  footstep : FootstepState
  friction : FrictionState
  general : GeneralState
deriving DecidableEq

/-- One frame of the detection part of `useAudioAnalysis.analyze`
(feature extraction already done): run the footstep and friction detectors,
resolve a same-frame conflict, and consult the general detector only when
friction is not sustaining and neither specific detector fired. Returns the
events pushed to the log this frame, with the updated detector states. -/
def analyzeFrame (st : AnalysisState) (features : SpectralFeatures) (now : ℚ)
    (config : Option DetectionConfig) : List NoiseEvent × AnalysisState :=
  let fsR := FootstepDetector.detect st.footstep features now config
  let frR := FrictionDetector.detect st.friction features now config
  let resolved := resolveConflict fsR.1 frR.1
  let footstep := resolved.1
  let friction := resolved.2
  let newEvents := footstep.toList ++ friction.toList
  let isFrictionActive := frR.2.isDetecting
  if isFrictionActive = false ∧ friction = none ∧ footstep = none then
    let gR := GeneralDetector.detect st.general features now config
    (newEvents ++ gR.1.toList, { footstep := fsR.2, friction := frR.2, general := gR.2 })
  else
    (newEvents, { footstep := fsR.2, friction := frR.2, general := st.general })

/-! ## NoiseGenerator (`Equalizer.ts`)

Each per-sample filter body is a state-transition function; the surrounding
`for` loop is the structural recursion `runFilter`.  The two-pass circular
construction runs the same filter twice over the white source, writing the
output only on the second pass. -/

/-- Run a per-sample filter over a buffer, threading the filter state and
collecting the per-sample outputs (the body of the generator loops). -/
def runFilter {σ : Type} (step : σ → ℚ → σ × ℚ) : σ → List ℚ → σ × List ℚ
  | s, [] => (s, [])
  | s, w :: rest =>
    let r := step s w
    let rec' := runFilter step r.1 rest
    (rec'.1, r.2 :: rec'.2)

namespace NoiseGenerator

/-- Accumulator state of the pink filter (`b0` .. `b6`). -/
structure PinkState where
  b0 : ℚ
  b1 : ℚ
  b2 : ℚ
  b3 : ℚ
  b4 : ℚ
  b5 : ℚ
  b6 : ℚ
deriving DecidableEq

def pinkInit : PinkState := ⟨0, 0, 0, 0, 0, 0, 0⟩

/-- Loop body of `fillPinkCircular` (Voss–McCartney coefficients). -/
def pinkStep (s : PinkState) (w : ℚ) : PinkState × ℚ :=
  let b0 := 0.99886 * s.b0 + w * 0.0555179
  let b1 := 0.99332 * s.b1 + w * 0.0750759
  let b2 := 0.96900 * s.b2 + w * 0.1538520
  let b3 := 0.86650 * s.b3 + w * 0.3104856
  let b4 := 0.55000 * s.b4 + w * 0.5329522
  let b5 := -0.7616 * s.b5 - w * 0.0168980
  let val := (b0 + b1 + b2 + b3 + b4 + b5 + s.b6 + w * 0.5362) * 0.11
  let b6 := w * 0.115926
  (⟨b0, b1, b2, b3, b4, b5, b6⟩, val)

/-- Loop body of `fillBrownCircular`: leaky integrator, output scaled 3.5. -/
def brownStep (lastOut : ℚ) (w : ℚ) : ℚ × ℚ :=
  let next := (lastOut + 0.02 * w) / 1.02
  (next, next * 3.5)

/-- Loop body of `fillBlueCircular`: first difference scaled 0.5. -/
def blueStep (prev : ℚ) (w : ℚ) : ℚ × ℚ :=
  (w, (w - prev) * 0.5)

/-- Loop body of `fillVioletCircular`: second difference scaled 0.35; state
is the pair `(prev1, prev2)`. -/
def violetStep (p : ℚ × ℚ) (w : ℚ) : (ℚ × ℚ) × ℚ :=
  ((w, p.1), (w - 2 * p.1 + p.2) * 0.35)

/-- Two-pass circular filtering: pass 0 only settles the filter state, pass 1
writes the output buffer. -/
def twoPass {σ : Type} (step : σ → ℚ → σ × ℚ) (init : σ) (white : List ℚ) : List ℚ :=
  (runFilter step (runFilter step init white).1 white).2

/-- Embedding of `NoiseGenerator.fillPinkCircular`. -/
def fillPinkCircular (white : List ℚ) : List ℚ := twoPass pinkStep pinkInit white

/-- Embedding of `NoiseGenerator.fillBrownCircular`. -/
def fillBrownCircular (white : List ℚ) : List ℚ := twoPass brownStep 0.0 white

/-- Embedding of `NoiseGenerator.fillBlueCircular`. -/
def fillBlueCircular (white : List ℚ) : List ℚ := twoPass blueStep 0 white

/-- Embedding of `NoiseGenerator.fillVioletCircular`. -/
def fillVioletCircular (white : List ℚ) : List ℚ := twoPass violetStep (0, 0) white

/-- Buffer length chosen by the `NoiseGenerator` constructor:
`bufferSize = context.sampleRate * duration`. -/
def bufferSize (sampleRate duration : ℕ) : ℕ := sampleRate * duration

/-- The five noise colors (`NoiseType` in `types/audio.ts`). -/
inductive NoiseType
  | white
  | pink
  | brown
  | blue
  | violet
deriving DecidableEq

/-- Embedding of `NoiseGenerator.createNoiseBuffer` with the random white
source passed explicitly (`whiteSource[i] = Math.random() * 2 - 1`). -/
def createNoiseBuffer (type : NoiseType) (whiteSource : List ℚ) : List ℚ :=
  match type with
  | .white => whiteSource
  | .pink => fillPinkCircular whiteSource
  | .brown => fillBrownCircular whiteSource
  | .blue => fillBlueCircular whiteSource
  | .violet => fillVioletCircular whiteSource

end NoiseGenerator

/-! ## AutoMaskingService (`SpectralAnalyzer.ts`)

`calculateFromData` maps one magnitude frame onto a partial masking
configuration.  The frame is modelled as a bin-index function `ℕ → ℕ`
(byte magnitudes) together with the explicit bin count `bufferLength`. -/

/-- EQ band configuration (`types/audio.ts`, `EQBandConfig`); the biquad
filter kind is kept as a plain string. -/
structure EQBandConfig where
  frequency : ℚ
  gain : ℚ
  Q : ℚ
  type : String
deriving DecidableEq

/-- Per-color noise volumes (`Record<NoiseType, number>`). -/
structure NoiseVolumes where
  white : ℚ
  pink : ℚ
  brown : ℚ
  blue : ℚ
  violet : ℚ
deriving DecidableEq

/-- The slice of `SilentiumConfig` read or written by the masking
calculator (the remaining fields are passed through untouched). -/
structure SilentiumConfig where
  noiseVolumes : NoiseVolumes
  eqBands : List EQBandConfig
  rumbleIntensity : ℚ
  rumbleCrossover : ℚ
  hpf : ℚ
  lpf : ℚ
deriving DecidableEq

namespace AutoMaskingService

/-- Running sum and bin count of one analysis band. -/
structure BandAcc where
  sum : ℚ
  count : ℕ
deriving DecidableEq

/-- The five analysis bands of `calculateFromData`. -/
structure Bands where
  low : BandAcc
  midLow : BandAcc
  mid : BandAcc
  midHigh : BandAcc
  high : BandAcc
deriving DecidableEq

def bandsInit : Bands := ⟨⟨0, 0⟩, ⟨0, 0⟩, ⟨0, 0⟩, ⟨0, 0⟩, ⟨0, 0⟩⟩

/-- Body of the band-accumulation loop: bin `i` of the frame is routed to one
of the five bands by its frequency `(i / bufferLength) * nyquist`. -/
def accumBin (dataArray : ℕ → ℕ) (bufferLength : ℕ) (nyquist : ℚ) (b : Bands) (i : ℕ) : Bands :=
  let freq := ((i : ℚ) / (bufferLength : ℚ)) * nyquist
  let val := ((dataArray i : ℕ) : ℚ)
  if freq < 150 then
    { b with low := ⟨b.low.sum + val, b.low.count + 1⟩ }
  else if freq < 400 then
    { b with midLow := ⟨b.midLow.sum + val, b.midLow.count + 1⟩ }
  else if freq < 1000 then
    { b with mid := ⟨b.mid.sum + val, b.mid.count + 1⟩ }
  else if freq < 4000 then
    { b with midHigh := ⟨b.midHigh.sum + val, b.midHigh.count + 1⟩ }
  else
    { b with high := ⟨b.high.sum + val, b.high.count + 1⟩ }

/-- Average level of a band, 0 when the band holds no bin. -/
def bandLevel (acc : BandAcc) : ℚ :=
  if acc.count > 0 then acc.sum / (acc.count : ℚ) else 0

/-- The `normalize` closure of `calculateFromData`: a low floor below the
threshold, a clamped affine ramp above it. -/
def normalize (val : ℚ) : ℚ :=
  let threshold : ℚ := 40.0
  if val < threshold then 0.1
  else min 1.0 (0.2 + (val - threshold) / 120)

/-- Per-band average levels of `calculateFromData`. -/
structure Levels where
  low : ℚ
  midLow : ℚ
  mid : ℚ
  midHigh : ℚ
  high : ℚ
deriving DecidableEq

/-- Band-accumulation pass of `calculateFromData` followed by the
count-guarded averages. -/
def computeLevels (dataArray : ℕ → ℕ) (bufferLength : ℕ) (sampleRate : ℚ) : Levels :=
  let nyquist := sampleRate / 2
  let bands := (List.range bufferLength).foldl (accumBin dataArray bufferLength nyquist) bandsInit
  { low := bandLevel bands.low
    midLow := bandLevel bands.midLow
    mid := bandLevel bands.mid
    midHigh := bandLevel bands.midHigh
    high := bandLevel bands.high }

/-- EQ gain rule of `calculateFromData`: boost above the 80 baseline (capped
at +6 dB), cut below it (floored at −3 dB). -/
def eqGain (targetLevel : ℚ) : ℚ :=
  let baseLevel : ℚ := 80
  if targetLevel > baseLevel then min 6 ((targetLevel - baseLevel) / 20)
  else max (-3) ((targetLevel - baseLevel) / 30)

/-- Band level steering one EQ band, selected by the band center frequency. -/
def eqTargetLevel (levels : Levels) (band : EQBandConfig) : ℚ :=
  if band.frequency ≤ 100 then levels.low
  else if band.frequency ≤ 300 then levels.midLow
  else if band.frequency ≤ 1000 then levels.mid
  else if band.frequency ≤ 4000 then levels.midHigh
  else levels.high

/-- Embedding of `AutoMaskingService.calculateFromData`: one magnitude frame
plus the current configuration to a partial configuration delta (here: the
full record of the fields the delta sets). -/
def calculateFromData (dataArray : ℕ → ℕ) (bufferLength : ℕ)
    (currentConfig : SilentiumConfig) (sampleRate : ℚ) : SilentiumConfig :=
  let levels := computeLevels dataArray bufferLength sampleRate
  let newNoiseVolumes : NoiseVolumes :=
    { currentConfig.noiseVolumes with
      brown := normalize (levels.low * 0.8 + levels.midLow * 0.4)
      pink := normalize (levels.midLow * 0.6 + levels.mid * 0.6)
      white := normalize (levels.midHigh * 0.8 + levels.high * 0.2)
      blue := normalize (levels.high * 0.7)
      violet := normalize (levels.high * 0.5) }
  let newEQBands := currentConfig.eqBands.map (fun band =>
    { band with gain := eqGain (eqTargetLevel levels band) })
  let newRumbleIntensity := if levels.low > 140 then min 0.8 ((levels.low - 140) / 100) else 0
  let newRumbleCrossover := if levels.low > 140 then 80 + (levels.low - 140) * 0.5 else 80
  let newHPF : ℚ := if levels.low < 60 then 150 else if levels.low < 100 then 80 else 30
  let newLPF : ℚ :=
    if levels.high < 60 then 8000
    else if levels.high > 120 then 16000
    else currentConfig.lpf
  { noiseVolumes := newNoiseVolumes
    eqBands := newEQBands
    rumbleIntensity := newRumbleIntensity
    rumbleCrossover := min 150 newRumbleCrossover
    hpf := newHPF
    lpf := newLPF }

end AutoMaskingService

/-! ## Specification-side readings and characterizations -/

namespace NoiseGenerator

/-- Specification reading of the two-pass construction: run the filter once
over the white source concatenated with itself and keep only the second
half. -/
def concatSecondHalf {σ : Type} (step : σ → ℚ → σ × ℚ) (init : σ) (white : List ℚ) : List ℚ :=
  ((runFilter step init (white ++ white)).2).drop white.length

/-- Closed form of one blue pass started from previous-sample register
`prev`. -/
def blueOut (prev : ℚ) : List ℚ → List ℚ
  | [] => []
  | w :: rest => (w - prev) * 0.5 :: blueOut w rest

/-- Closed form of one violet pass started from registers `(p1, p2)`. -/
def violetOut (p1 p2 : ℚ) : List ℚ → List ℚ
  | [] => []
  | w :: rest => (w - 2 * p1 + p2) * 0.35 :: violetOut w p1 rest

end NoiseGenerator

namespace AutoMaskingService

/-- Invariant of the band accumulation over a frame whose below-150 Hz bins
are all 200 and whose other bins are 0: the low band carries 200 per bin and
every other band carries sum 0. -/
def lowOnlyInv (b : Bands) : Prop :=
  b.low.sum = 200 * (b.low.count : ℚ) ∧ b.midLow.sum = 0 ∧ b.mid.sum = 0 ∧
  b.midHigh.sum = 0 ∧ b.high.sum = 0

end AutoMaskingService

/-! ## Concrete inputs used in witnesses and counterexamples -/

/-- A loud low-frequency transient: triggers the footstep detector with the
default configuration. -/
def impulseFeatures : SpectralFeatures :=
  { energy := 2000, lowBandEnergy := 1000, midBandEnergy := 500, highBandEnergy := 100
    spectralFlux := 1000, spectralCentroid := 200, peakFrequency := 150 }

/-- A loud broad transient whose peak frequency lies above 20200 Hz
(reachable: at a 48 kHz sample rate the top bins map to ≈ 24 kHz). -/
def highPeakFeatures : SpectralFeatures :=
  { energy := 1000000, lowBandEnergy := 0, midBandEnergy := 0, highBandEnergy := 1000000
    spectralFlux := 1000000, spectralCentroid := 20000, peakFrequency := 23000 }

/-- A loud frame whose spectral flux (400) is below the base flux threshold
(500) of the general detector. -/
def lowFluxFeatures : SpectralFeatures :=
  { energy := 100000, lowBandEnergy := 0, midBandEnergy := 0, highBandEnergy := 100000
    spectralFlux := 400, spectralCentroid := 5000, peakFrequency := 5000 }

/-- Detection configuration with a doubled generic sensitivity. -/
def sensitiveConfig : DetectionConfig :=
  { frictionSensitivity := 1.0, footstepSensitivity := 1.0, genericSensitivity := 2.0 }

/-- Sustained mid-band noise: friction metric 100, above the default
effective threshold 40. -/
def sustainedFeatures : SpectralFeatures :=
  { energy := 120, lowBandEnergy := 0, midBandEnergy := 100, highBandEnergy := 20
    spectralFlux := 10, spectralCentroid := 800, peakFrequency := 700 }

/-- A silent frame: every feature 0. -/
def silentFeatures : SpectralFeatures :=
  { energy := 0, lowBandEnergy := 0, midBandEnergy := 0, highBandEnergy := 0
    spectralFlux := 0, spectralCentroid := 0, peakFrequency := 0 }

/-- A loud high-frequency transient that triggers only the general
detector (no low-band energy, no friction metric). -/
def genericOnlyFeatures : SpectralFeatures :=
  { energy := 100000, lowBandEnergy := 0, midBandEnergy := 0, highBandEnergy := 100000
    spectralFlux := 100000, spectralCentroid := 5000, peakFrequency := 5000 }

/-- Magnitude frame whose only non-zero bin is bin 0 at level 200 (with 4
bins at a 48 kHz sample rate, bin 0 is the only bin below 150 Hz). -/
def lowOnlyFrame : ℕ → ℕ := fun i => if i = 0 then 200 else 0

/-- A neutral masking configuration to feed `calculateFromData`. -/
def neutralMaskConfig : SilentiumConfig :=
  { noiseVolumes := { white := 0, pink := 0.3, brown := 0.5, blue := 0, violet := 0 }
    eqBands := []
    rumbleIntensity := 0
    rumbleCrossover := 80
    hpf := 20
    lpf := 20000 }

/-! ## Helper lemmas -/

/-- A footstep event emitted by `FootstepDetector.detect` is tagged
`footstep`. -/
theorem FootstepDetector.detect_fst_type_footstep {s : FootstepState} {f : SpectralFeatures}
    {t : ℚ} {c : Option DetectionConfig} {e : NoiseEvent}
    (h : (FootstepDetector.detect s f t c).1 = some e) : e.type = .footstep := by
  simp only [FootstepDetector.detect] at h
  split at h
  · exact absurd h (by simp)
  · split at h
    · injection h with h
      rw [← h]
    · exact absurd h (by simp)

/-- A friction event emitted by `FrictionDetector.detect` is tagged
`friction`. -/
theorem FrictionDetector.detect_fst_type_friction {s : FrictionState} {f : SpectralFeatures}
    {t : ℚ} {c : Option DetectionConfig} {e : NoiseEvent}
    (h : (FrictionDetector.detect s f t c).1 = some e) : e.type = .friction := by
  simp only [FrictionDetector.detect] at h
  split at h
  · split at h
    · split at h
      · exact absurd h (by simp)
      · injection h with h
        rw [← h]
    · exact absurd h (by simp)
  · exact absurd h (by simp)

/-- When the resolved pair of `resolveConflict` is empty, both detector
outputs were empty. -/
theorem resolveConflict_none_none {a b : Option NoiseEvent}
    (h1 : (resolveConflict a b).1 = none) (h2 : (resolveConflict a b).2 = none) :
    a = none ∧ b = none := by
  cases a with
  | none =>
    cases b with
    | none => exact ⟨rfl, rfl⟩
    | some fr => simp [resolveConflict] at h2
  | some fs =>
    cases b with
    | none => simp [resolveConflict] at h1
    | some fr =>
      simp only [resolveConflict] at h1 h2
      split_ifs at h1 h2 <;> simp_all

/-- The first component of the resolved pair comes from the footstep
detector. -/
theorem resolveConflict_fst_some {a b : Option NoiseEvent} {x : NoiseEvent}
    (h : (resolveConflict a b).1 = some x) : a = some x := by
  cases a with
  | none =>
    cases b with
    | none => simpa [resolveConflict] using h
    | some fr => simpa [resolveConflict] using h
  | some fs =>
    cases b with
    | none => simpa [resolveConflict] using h
    | some fr =>
      simp only [resolveConflict] at h
      split_ifs at h <;> simp_all

/-- The second component of the resolved pair comes from the friction
detector. -/
theorem resolveConflict_snd_some {a b : Option NoiseEvent} {x : NoiseEvent}
    (h : (resolveConflict a b).2 = some x) : b = some x := by
  cases a with
  | none =>
    cases b with
    | none => simpa [resolveConflict] using h
    | some fr => simpa [resolveConflict] using h
  | some fs =>
    cases b with
    | none => simpa [resolveConflict] using h
    | some fr =>
      simp only [resolveConflict] at h
      split_ifs at h <;> simp_all

/-- Running a filter over an appended buffer splits into two runs with the
state carried across the seam. -/
theorem runFilter_append {σ : Type} (step : σ → ℚ → σ × ℚ) (s : σ) (xs ys : List ℚ) :
    runFilter step s (xs ++ ys) =
      ((runFilter step (runFilter step s xs).1 ys).1,
       (runFilter step s xs).2 ++ (runFilter step (runFilter step s xs).1 ys).2) := by
  induction xs generalizing s with
  | nil => simp [runFilter]
  | cons a t ih => simp [runFilter, ih]

/-- A filter pass writes one output sample per input sample. -/
theorem runFilter_length {σ : Type} (step : σ → ℚ → σ × ℚ) (s : σ) (xs : List ℚ) :
    (runFilter step s xs).2.length = xs.length := by
  induction xs generalizing s with
  | nil => simp [runFilter]
  | cons a t ih => simp [runFilter, ih]

/-- The code's two-pass construction coincides with one pass over the
doubled source keeping the second half, for any filter. -/
theorem twoPass_eq_concatSecondHalf {σ : Type} (step : σ → ℚ → σ × ℚ) (init : σ)
    (w : List ℚ) :
    NoiseGenerator.twoPass step init w = NoiseGenerator.concatSecondHalf step init w := by
  unfold NoiseGenerator.twoPass NoiseGenerator.concatSecondHalf
  rw [runFilter_append]
  rw [show w.length = (runFilter step init w).2.length from (runFilter_length step init w).symm,
    List.drop_left]

/-- Within bounds, `List.getD` does not depend on the default. -/
theorem getD_irrel (l : List ℚ) (n : ℕ) (h : n < l.length) (d₁ d₂ : ℚ) :
    l.getD n d₁ = l.getD n d₂ := by
  rw [List.getD_eq_getElem l d₁ h, List.getD_eq_getElem l d₂ h]

/-- On a non-empty list, `getLastD` is the last element. -/
theorem getLastD_eq_getD (w : List ℚ) (d : ℚ) (hw : w ≠ []) :
    w.getLastD d = w.getD (w.length - 1) d := by
  induction w generalizing d with
  | nil => exact absurd rfl hw
  | cons a t ih =>
    rw [List.getLastD_cons]
    cases t with
    | nil => simp
    | cons b t' =>
      rw [ih a (by simp)]
      have hlen : (a :: b :: t').length - 1 = ((b :: t').length - 1) + 1 := by simp
      rw [hlen, List.getD_cons_succ]
      exact getD_irrel _ _ (by simp) a d

/-- A blue pass returns the last input as its state and `blueOut` as its
output. -/
theorem runFilter_blueStep (s : ℚ) (w : List ℚ) :
    runFilter NoiseGenerator.blueStep s w = (w.getLastD s, NoiseGenerator.blueOut s w) := by
  induction w generalizing s with
  | nil => simp [runFilter, NoiseGenerator.blueOut]
  | cons a t ih =>
    simp only [runFilter, NoiseGenerator.blueStep, NoiseGenerator.blueOut, ih,
      List.getLastD_cons, Prod.mk.injEq, List.cons.injEq, true_and, and_true]

/-- Sample `i` of a blue pass is the scaled difference with the previous
sample (the initial register for sample 0). -/
theorem blueOut_getD (s : ℚ) (w : List ℚ) :
    ∀ i < w.length, (NoiseGenerator.blueOut s w).getD i 0 =
      (w.getD i 0 - (if i = 0 then s else w.getD (i - 1) 0)) * 0.5 := by
  induction w generalizing s with
  | nil =>
    intro i hi
    simp at hi
  | cons a t ih =>
    intro i hi
    cases i with
    | zero => simp [NoiseGenerator.blueOut]
    | succ k =>
      have hk : k < t.length := by simpa using hi
      simp only [NoiseGenerator.blueOut, List.getD_cons_succ]
      rw [ih a k hk]
      cases k with
      | zero => simp
      | succ m => simp

/-- A violet pass returns the last two inputs as its registers and
`violetOut` as its output. -/
theorem runFilter_violetStep (p1 p2 : ℚ) (w : List ℚ) :
    runFilter NoiseGenerator.violetStep (p1, p2) w =
      ((w.getLastD p1, ((p1 :: w).dropLast).getLastD p2),
       NoiseGenerator.violetOut p1 p2 w) := by
  induction w generalizing p1 p2 with
  | nil => simp [runFilter, NoiseGenerator.violetOut]
  | cons a t ih =>
    simp only [runFilter, NoiseGenerator.violetStep, NoiseGenerator.violetOut, ih,
      List.getLastD_cons, Prod.mk.injEq, List.cons.injEq, true_and, and_true]
    cases t with
    | nil => simp [List.dropLast]
    | cons b t' =>
      have hdl : (p1 :: a :: b :: t').dropLast = p1 :: (a :: b :: t').dropLast := by
        simp [List.dropLast]
      rw [hdl, List.getLastD_cons]

/-- After one violet pass over a buffer of length at least 2, the registers
hold the last two samples of the buffer. -/
theorem violet_pass_state (w : List ℚ) (h2 : 2 ≤ w.length) :
    (runFilter NoiseGenerator.violetStep (0, 0) w).1 =
      (w.getD (w.length - 1) 0, w.getD (w.length - 2) 0) := by
  have hw : w ≠ [] := by
    intro h
    rw [h] at h2
    simp at h2
  rw [runFilter_violetStep]
  simp only [Prod.mk.injEq]
  constructor
  · exact getLastD_eq_getD w 0 hw
  · cases w with
    | nil => exact absurd rfl hw
    | cons b t =>
      have hdl : ((0 : ℚ) :: b :: t).dropLast = 0 :: (b :: t).dropLast := by
        simp [List.dropLast]
      rw [hdl, List.getLastD_cons]
      have hne : (b :: t).dropLast ≠ [] := by
        intro hx
        have hlen := List.length_dropLast (b :: t)
        rw [hx] at hlen
        simp only [List.length_nil, List.length_cons] at hlen h2
        omega
      rw [getLastD_eq_getD _ 0 hne]
      have hlt : (b :: t).dropLast.length - 1 < (b :: t).dropLast.length := by
        rw [List.length_dropLast]
        simp only [List.length_cons] at h2 ⊢
        omega
      rw [List.getD_eq_getElem _ _ hlt]
      rw [List.getElem_dropLast]
      rw [List.getD_eq_getElem _ _ (by rw [List.length_dropLast] at hlt; omega)]
      congr 1
      rw [List.length_dropLast]
      omega

/-- Sample `i` of a violet pass is the scaled second difference with the two
previous samples (the initial registers for samples 0 and 1). -/
theorem violetOut_getD (p1 p2 : ℚ) (w : List ℚ) :
    ∀ i < w.length, (NoiseGenerator.violetOut p1 p2 w).getD i 0 =
      (w.getD i 0 - 2 * (if i = 0 then p1 else w.getD (i - 1) 0)
        + (if i = 0 then p2 else if i = 1 then p1 else w.getD (i - 2) 0)) * 0.35 := by
  induction w generalizing p1 p2 with
  | nil =>
    intro i hi
    simp at hi
  | cons a t ih =>
    intro i hi
    cases i with
    | zero => simp [NoiseGenerator.violetOut]
    | succ k =>
      have hk : k < t.length := by simpa using hi
      simp only [NoiseGenerator.violetOut, List.getD_cons_succ]
      rw [ih a p1 k hk]
      rcases k with _ | _ | m
      · simp
      · simp
      · simp

/-- Closed circular form of the blue two-pass fill. -/
theorem fillBlue_getD (w : List ℚ) (i : ℕ) (hi : i < w.length) :
    (NoiseGenerator.fillBlueCircular w).getD i 0 =
      0.5 * (w.getD i 0 - w.getD ((i + w.length - 1) % w.length) 0) := by
  have hw : w ≠ [] := by
    intro h
    rw [h] at hi
    simp at hi
  have hpos : 1 ≤ w.length := by
    cases w with
    | nil => exact absurd rfl hw
    | cons b t => simp
  have hout : (runFilter NoiseGenerator.blueStep
      (runFilter NoiseGenerator.blueStep 0 w).1 w).2 =
      NoiseGenerator.blueOut (w.getLastD 0) w := by
    simp [runFilter_blueStep]
  unfold NoiseGenerator.fillBlueCircular NoiseGenerator.twoPass
  rw [hout, blueOut_getD (w.getLastD 0) w i hi]
  rcases Nat.eq_zero_or_pos i with rfl | hposi
  · rw [if_pos rfl, getLastD_eq_getD w 0 hw]
    have hmod : (0 + w.length - 1) % w.length = w.length - 1 := by
      rw [Nat.zero_add]
      exact Nat.mod_eq_of_lt (by omega)
    rw [hmod]
    ring
  · rw [if_neg (by omega)]
    have hmod : (i + w.length - 1) % w.length = i - 1 := by
      have h1 : i + w.length - 1 = (i - 1) + w.length := by omega
      rw [h1, Nat.add_mod_right]
      exact Nat.mod_eq_of_lt (by omega)
    rw [hmod]
    ring

/-- Closed circular form of the violet two-pass fill on buffers of length at
least 2. -/
theorem fillViolet_getD (w : List ℚ) (h2 : 2 ≤ w.length) (i : ℕ) (hi : i < w.length) :
    (NoiseGenerator.fillVioletCircular w).getD i 0 =
      0.35 * (w.getD i 0 - 2 * w.getD ((i + w.length - 1) % w.length) 0
        + w.getD ((i + w.length - 2) % w.length) 0) := by
  have hout : (runFilter NoiseGenerator.violetStep
      (w.getD (w.length - 1) 0, w.getD (w.length - 2) 0) w).2 =
      NoiseGenerator.violetOut (w.getD (w.length - 1) 0) (w.getD (w.length - 2) 0) w := by
    rw [runFilter_violetStep]
  unfold NoiseGenerator.fillVioletCircular NoiseGenerator.twoPass
  rw [violet_pass_state w h2, hout,
    violetOut_getD (w.getD (w.length - 1) 0) (w.getD (w.length - 2) 0) w i hi]
  rcases i with _ | _ | m
  · rw [if_pos rfl, if_pos rfl]
    have hmod1 : (0 + w.length - 1) % w.length = w.length - 1 := by
      rw [Nat.zero_add]
      exact Nat.mod_eq_of_lt (by omega)
    have hmod2 : (0 + w.length - 2) % w.length = w.length - 2 := by
      rw [Nat.zero_add]
      exact Nat.mod_eq_of_lt (by omega)
    rw [hmod1, hmod2]
    ring
  · rw [if_neg (by omega), if_neg (by omega), if_pos rfl]
    have hmod1 : (1 + w.length - 1) % w.length = 0 := by
      have h1 : 1 + w.length - 1 = w.length := by omega
      rw [h1, Nat.mod_self]
    have hmod2 : (1 + w.length - 2) % w.length = w.length - 1 := by
      have h1 : 1 + w.length - 2 = w.length - 1 := by omega
      rw [h1]
      exact Nat.mod_eq_of_lt (by omega)
    rw [hmod1, hmod2]
    ring
  · rw [if_neg (by omega), if_neg (by omega), if_neg (by omega)]
    have hmod1 : (m + 2 + w.length - 1) % w.length = m + 1 := by
      have h1 : m + 2 + w.length - 1 = (m + 1) + w.length := by omega
      rw [h1, Nat.add_mod_right]
      exact Nat.mod_eq_of_lt (by omega)
    have hmod2 : (m + 2 + w.length - 2) % w.length = m := by
      have h1 : m + 2 + w.length - 2 = m + w.length := by omega
      rw [h1, Nat.add_mod_right]
      exact Nat.mod_eq_of_lt (by omega)
    rw [hmod1, hmod2]
    have e1 : m + 2 - 1 = m + 1 := by omega
    have e2 : m + 2 - 2 = m := by omega
    rw [e1, e2]
    ring

/-- The last element of a list is a member (or the default is returned). -/
theorem getLastD_mem_or_default (w : List ℚ) (d : ℚ) :
    w.getLastD d ∈ w ∨ w.getLastD d = d := by
  induction w generalizing d with
  | nil =>
    right
    rfl
  | cons a t ih =>
    rw [List.getLastD_cons]
    rcases ih a with h | h
    · left
      exact List.mem_cons_of_mem a h
    · left
      rw [h]
      exact List.mem_cons_self ..

/-- Outputs of a blue pass stay in [−1, 1] when the source and the initial
register do. -/
theorem blueOut_bounded (s : ℚ) (w : List ℚ) (hs : -1 ≤ s ∧ s ≤ 1)
    (hw : ∀ x ∈ w, -1 ≤ x ∧ x ≤ 1) :
    ∀ y ∈ NoiseGenerator.blueOut s w, -1 ≤ y ∧ y ≤ 1 := by
  induction w generalizing s with
  | nil =>
    intro y hy
    simp [NoiseGenerator.blueOut] at hy
  | cons a t ih =>
    intro y hy
    have ha := hw a (List.mem_cons_self ..)
    simp only [NoiseGenerator.blueOut, List.mem_cons] at hy
    rcases hy with rfl | hy
    · constructor <;> linarith [hs.1, hs.2, ha.1, ha.2]
    · exact ih a ha (fun x hx => hw x (List.mem_cons_of_mem a hx)) y hy

/-- The two-pass construction preserves the buffer length. -/
theorem twoPass_length {σ : Type} (step : σ → ℚ → σ × ℚ) (init : σ) (w : List ℚ) :
    (NoiseGenerator.twoPass step init w).length = w.length := by
  unfold NoiseGenerator.twoPass
  exact runFilter_length step _ w

/-- Every generated noise buffer has exactly the length of the white
source. -/
theorem createNoiseBuffer_length (type : NoiseGenerator.NoiseType) (w : List ℚ) :
    (NoiseGenerator.createNoiseBuffer type w).length = w.length := by
  cases type <;>
    simp [NoiseGenerator.createNoiseBuffer, NoiseGenerator.fillPinkCircular,
      NoiseGenerator.fillBrownCircular, NoiseGenerator.fillBlueCircular,
      NoiseGenerator.fillVioletCircular, twoPass_length]

/-- Band accumulation over a low-only frame (below-150 Hz bins at 200,
everything else 0): the invariant `lowOnlyInv` holds after any prefix of the
bin loop, and as soon as at least one bin (bin 0, whose frequency is 0 Hz)
has been processed the low band is non-empty. -/
theorem bands_lowOnly (dataArray : ℕ → ℕ) (bufferLength : ℕ) (nyquist : ℚ)
    (hdata : ∀ i < bufferLength,
      (((i : ℚ) / (bufferLength : ℚ)) * nyquist < 150 → dataArray i = 200) ∧
      (¬ ((i : ℚ) / (bufferLength : ℚ)) * nyquist < 150 → dataArray i = 0)) :
    ∀ m ≤ bufferLength,
      AutoMaskingService.lowOnlyInv
        ((List.range m).foldl (AutoMaskingService.accumBin dataArray bufferLength nyquist)
          AutoMaskingService.bandsInit) ∧
      (1 ≤ m → 1 ≤ ((List.range m).foldl
          (AutoMaskingService.accumBin dataArray bufferLength nyquist)
          AutoMaskingService.bandsInit).low.count) := by
  intro m
  induction m with
  | zero =>
    intro _
    constructor
    · simp [AutoMaskingService.lowOnlyInv, AutoMaskingService.bandsInit]
    · intro h
      exact absurd h (by omega)
  | succ k ih =>
    intro hk
    obtain ⟨hinv0, hcnt⟩ := ih (by omega)
    have hinv := hinv0
    unfold AutoMaskingService.lowOnlyInv at hinv
    rw [List.range_succ, List.foldl_append, List.foldl_cons, List.foldl_nil]
    have hdk := hdata k (by omega)
    have harith : ∀ (sum : ℚ) (count : ℕ), sum = 200 * (count : ℚ) →
        sum + ((200 : ℕ) : ℚ) = 200 * ((count + 1 : ℕ) : ℚ) := by
      intro sum count h
      push_cast
      rw [h]
      ring
    have hzero : ∀ sum : ℚ, sum = 0 → sum + ((0 : ℕ) : ℚ) = 0 := by
      intro sum h
      rw [h]
      norm_num
    by_cases hf : ((k : ℚ) / (bufferLength : ℚ)) * nyquist < 150
    · have hv : dataArray k = 200 := hdk.1 hf
      simp only [AutoMaskingService.accumBin]
      rw [if_pos hf, hv]
      constructor
      · exact ⟨harith _ _ hinv.1, hinv.2.1, hinv.2.2.1, hinv.2.2.2.1, hinv.2.2.2.2⟩
      · intro _
        exact Nat.le_add_left 1 _
    · have hv : dataArray k = 0 := hdk.2 hf
      have hk1 : 1 ≤ k := by
        by_contra h0
        have hkz : k = 0 := by omega
        apply hf
        rw [hkz]
        norm_num
      simp only [AutoMaskingService.accumBin]
      rw [if_neg hf, hv]
      constructor
      · split_ifs
        · exact ⟨hinv.1, hzero _ hinv.2.1, hinv.2.2.1, hinv.2.2.2.1, hinv.2.2.2.2⟩
        · exact ⟨hinv.1, hinv.2.1, hzero _ hinv.2.2.1, hinv.2.2.2.1, hinv.2.2.2.2⟩
        · exact ⟨hinv.1, hinv.2.1, hinv.2.2.1, hzero _ hinv.2.2.2.1, hinv.2.2.2.2⟩
        · exact ⟨hinv.1, hinv.2.1, hinv.2.2.1, hinv.2.2.2.1, hzero _ hinv.2.2.2.2⟩
      · intro _
        split_ifs <;> exact hcnt hk1

/-- On an above-threshold frame, `FrictionDetector.detect` increments the
consecutive-frame counter, emits exactly when the counter reaches the frame
threshold while not already sustaining, and raises the sustaining flag at
the threshold. -/
theorem FrictionDetector.detect_above (c : ℕ) (d : Bool) (f : SpectralFeatures) (t : ℚ)
    (config : Option DetectionConfig)
    (h : FrictionDetector.frictionEnergy f >
      effectiveThreshold
        ((config.bind DetectionConfig.frictionThreshold).getD
          FrictionDetector.BASE_ENERGY_THRESHOLD)
        ((config.map DetectionConfig.frictionSensitivity).getD 1.0)) :
    FrictionDetector.detect ⟨c, d⟩ f t config =
      ((if c + 1 ≥ FrictionDetector.FRAMES_THRESHOLD ∧ d = false
        then some { type := .friction, timestamp := t
                    confidence := min 1.0 (FrictionDetector.frictionEnergy f /
                      effectiveThreshold
                        ((config.bind DetectionConfig.frictionThreshold).getD
                          FrictionDetector.BASE_ENERGY_THRESHOLD)
                        ((config.map DetectionConfig.frictionSensitivity).getD 1.0) * 0.6)
                    frequencyRange := { min := 100, max := 1000 }
                    details := some { energy := FrictionDetector.frictionEnergy f
                                      spectralFlux := none } }
        else none),
       { continuousFrames := c + 1
         isDetecting := if c + 1 ≥ FrictionDetector.FRAMES_THRESHOLD then true else d }) := by
  simp only [FrictionDetector.detect]
  rw [if_pos h]
  cases d with
  | false =>
    by_cases h12 : c + 1 ≥ FrictionDetector.FRAMES_THRESHOLD
    · simp [h12]
    · simp [h12]
  | true =>
    by_cases h12 : c + 1 ≥ FrictionDetector.FRAMES_THRESHOLD
    · simp [h12]
    · simp [h12]

/-- On a below-threshold frame, `FrictionDetector.detect` returns `null` and
falls back to the initial state (counter 0, sustaining flag cleared). -/
theorem FrictionDetector.detect_below (s : FrictionState) (f : SpectralFeatures) (t : ℚ)
    (config : Option DetectionConfig)
    (h : ¬ FrictionDetector.frictionEnergy f >
      effectiveThreshold
        ((config.bind DetectionConfig.frictionThreshold).getD
          FrictionDetector.BASE_ENERGY_THRESHOLD)
        ((config.map DetectionConfig.frictionSensitivity).getD 1.0)) :
    FrictionDetector.detect s f t config = (none, FrictionDetector.initState) := by
  simp only [FrictionDetector.detect, FrictionDetector.initState]
  rw [if_neg h]
  have hz : (if s.continuousFrames > 0 then 0 else s.continuousFrames) = 0 := by
    split <;> omega
  simp [hz]

/-- Characterization of a run of above-threshold frames from a state whose
sustaining flag agrees with `12 ≤ counter`: call `i` (0-based) emits exactly
when it brings the counter to 12. -/
theorem FrictionDetector.detectRun_above_char (config : Option DetectionConfig) :
    ∀ (frames : List (SpectralFeatures × ℚ)),
      (∀ fr ∈ frames,
        FrictionDetector.frictionEnergy fr.1 >
          effectiveThreshold
            ((config.bind DetectionConfig.frictionThreshold).getD
              FrictionDetector.BASE_ENERGY_THRESHOLD)
            ((config.map DetectionConfig.frictionSensitivity).getD 1.0)) →
      ∀ (c : ℕ) (d : Bool), (d = true ↔ 12 ≤ c) →
        ∀ i < frames.length,
          (((FrictionDetector.detectRun ⟨c, d⟩ config frames).getD i none).isSome = true
            ↔ c + i + 1 = 12) := by
  intro frames
  induction frames with
  | nil =>
    intro _ c d hd i hi
    simp at hi
  | cons fr rest ih =>
    intro habove c d hd i hi
    have hmet := habove fr (List.mem_cons_self ..)
    have hrest := fun x hx => habove x (List.mem_cons_of_mem fr hx)
    have hdet := FrictionDetector.detect_above c d fr.1 fr.2 config hmet
    simp only [FrictionDetector.FRAMES_THRESHOLD] at hdet
    simp only [FrictionDetector.detectRun, hdet]
    by_cases h12 : 12 ≤ c + 1
    · cases d with
      | false =>
        have hc : ¬ 12 ≤ c := by
          intro hx
          exact absurd (hd.mpr hx) (by simp)
        rw [if_pos ⟨h12, rfl⟩, if_pos h12]
        cases i with
        | zero =>
          simp only [List.getD_cons_zero, Option.isSome_some]
          exact iff_of_true (by trivial) (by omega)
        | succ k =>
          rw [List.getD_cons_succ]
          have hk : k < rest.length := by simpa using hi
          rw [ih hrest (c + 1) true (by simp [h12]) k hk]
          omega
      | true =>
        have hc : 12 ≤ c := hd.mp rfl
        rw [if_neg (by simp), if_pos h12]
        cases i with
        | zero =>
          simp only [List.getD_cons_zero, Option.isSome_none]
          exact iff_of_false (by simp) (by omega)
        | succ k =>
          rw [List.getD_cons_succ]
          have hk : k < rest.length := by simpa using hi
          rw [ih hrest (c + 1) true (by simp [h12]) k hk]
          omega
    · rw [if_neg (fun hx => h12 hx.1), if_neg h12]
      cases i with
      | zero =>
        simp only [List.getD_cons_zero, Option.isSome_none]
        exact iff_of_false (by simp) (by omega)
      | succ k =>
        rw [List.getD_cons_succ]
        have hk : k < rest.length := by simpa using hi
        have hd2 : d = true ↔ 12 ≤ c + 1 := by
          constructor
          · intro hx
            exact le_trans (hd.mp hx) (by omega)
          · intro hx
            omega
        rw [ih hrest (c + 1) d hd2 k hk]
        omega

/-! ## Claim theorems -/

/-- C10: when the footstep and friction detectors both emit in the same
frame with exactly equal confidences, the arbitration keeps the footstep
event and discards the friction event (the comparison is
`footstep.confidence >= friction.confidence`, so ties go to footstep). -/
theorem resolveConflict_tie_keeps_footstep (fs fr : NoiseEvent)
    (h : fs.confidence = fr.confidence) :
    resolveConflict (some fs) (some fr) = (some fs, none) := by
  simp [resolveConflict, h, le_refl]

/-- Witness for C10 at two concrete equal-confidence events. -/
theorem resolveConflict_tie_keeps_footstep_witness :
    resolveConflict
        (some { type := .footstep, timestamp := 1000, confidence := 0.5
                frequencyRange := { min := 20, max := 300 }, details := none })
        (some { type := .friction, timestamp := 1000, confidence := 0.5
                frequencyRange := { min := 100, max := 1000 }, details := none }) =
      (some { type := .footstep, timestamp := 1000, confidence := 0.5
              frequencyRange := { min := 20, max := 300 }, details := none }, none) :=
  resolveConflict_tie_keeps_footstep _ _ rfl

/-- C8 (amended): for a positive base threshold, the effective threshold
`baseThreshold / sensitivity` used by all three detectors is strictly
decreasing in the sensitivity over positive sensitivities. -/
theorem effectiveThreshold_strictAnti_of_pos_base
    (base s₁ s₂ : ℚ) (hb : 0 < base) (h1 : 0 < s₁) (h12 : s₁ < s₂) :
    effectiveThreshold base s₂ < effectiveThreshold base s₁ := by
  unfold effectiveThreshold
  exact div_lt_div_of_pos_left hb h1 h12

/-- Witness for C8: the default friction base threshold at sensitivities 1
and 2. -/
theorem effectiveThreshold_strictAnti_witness :
    effectiveThreshold FrictionDetector.BASE_ENERGY_THRESHOLD 2 <
      effectiveThreshold FrictionDetector.BASE_ENERGY_THRESHOLD 1 :=
  effectiveThreshold_strictAnti_of_pos_base _ 1 2
    (by norm_num [FrictionDetector.BASE_ENERGY_THRESHOLD]) (by norm_num) (by norm_num)

/-- Counterexample to C8 as stated: with base threshold 0 the effective
threshold is constant in the sensitivity, hence not strictly decreasing. -/
theorem effectiveThreshold_zero_base_not_strict :
    effectiveThreshold 0 2 = effectiveThreshold 0 1 ∧
    ¬ effectiveThreshold 0 2 < effectiveThreshold 0 1 := by
  norm_num [effectiveThreshold]

/-- C3 (amended): the general detector never fires while the spectral flux
is at or below the sensitivity-scaled effective flux threshold
`BASE_FLUX_THRESHOLD / sensitivity`, no matter how large the energy is. -/
theorem generalDetect_low_flux_never_fires
    (s : GeneralState) (features : SpectralFeatures) (t : ℚ)
    (config : Option DetectionConfig)
    (h : features.spectralFlux ≤
      GeneralDetector.BASE_FLUX_THRESHOLD /
        ((config.map DetectionConfig.genericSensitivity).getD 1.0)) :
    (GeneralDetector.detect s features t config).1 = none := by
  simp only [GeneralDetector.detect]
  split
  · rfl
  · rw [if_neg]
    rintro ⟨-, h2⟩
    exact absurd h2 (not_lt.mpr h)

/-- Witness for C3: a silent frame never fires the general detector. -/
theorem generalDetect_low_flux_never_fires_witness :
    (GeneralDetector.detect GeneralDetector.initState silentFeatures 1000 none).1 = none :=
  generalDetect_low_flux_never_fires _ _ _ _
    (by norm_num [silentFeatures, GeneralDetector.BASE_FLUX_THRESHOLD])

/-- Counterexample to C3 as stated: with generic sensitivity 2 the effective
flux threshold drops to 250, so a frame with flux 400 (below the base
threshold 500) still fires. -/
theorem generalDetect_low_flux_fires_at_high_sensitivity :
    lowFluxFeatures.spectralFlux < GeneralDetector.BASE_FLUX_THRESHOLD ∧
    (GeneralDetector.detect GeneralDetector.initState lowFluxFeatures 1000
        (some sensitiveConfig)).1.isSome = true := by
  constructor
  · norm_num [lowFluxFeatures, GeneralDetector.BASE_FLUX_THRESHOLD]
  · norm_num [GeneralDetector.detect, GeneralDetector.initState, GeneralDetector.cooldownMs,
      GeneralDetector.BASE_FLUX_THRESHOLD, GeneralDetector.BASE_ENERGY_THRESHOLD,
      lowFluxFeatures, sensitiveConfig, effectiveThreshold]

/-- C2 (code bug): on a reachable input whose peak frequency exceeds
20200 Hz, the general detector emits an event whose frequency range has
`min > max` — the clip `max(20, peak − 200), min(20000, peak + 200)` does
not keep the range well-formed, contradicting the stated invariant
`frequencyRange.min ≤ frequencyRange.max`. -/
theorem generalDetect_high_peak_invalid_range :
    (GeneralDetector.detect GeneralDetector.initState highPeakFeatures 1000 none).1 =
      some { type := .generic, timestamp := 1000, confidence := 1
             frequencyRange := { min := 22800, max := 20000 }
             details := some { energy := 1000000, spectralFlux := none } } ∧
    ¬ ((22800 : ℚ) ≤ 20000) := by
  constructor
  · norm_num [GeneralDetector.detect, GeneralDetector.initState, GeneralDetector.cooldownMs,
      GeneralDetector.BASE_FLUX_THRESHOLD, GeneralDetector.BASE_ENERGY_THRESHOLD,
      highPeakFeatures, effectiveThreshold]
  · norm_num

/-- C1 (amended): for every frame whose below-150 Hz bins are all at level
200 and whose other bins are all zero (any bin count at least 1, any sample
rate, any current configuration), the instantaneous masking calculation
returns noise volumes with `brown > pink` and `pink = white` (brown saturates
at 1, pink and white both sit at the 0.1 floor — `pink > white` does not hold
strictly). -/
theorem calculateFromData_lowBand200_brown_dominates
    (dataArray : ℕ → ℕ) (bufferLength : ℕ) (cfg : SilentiumConfig) (sampleRate : ℚ)
    (hn : 1 ≤ bufferLength)
    (hdata : ∀ i < bufferLength,
      (((i : ℚ) / (bufferLength : ℚ)) * (sampleRate / 2) < 150 → dataArray i = 200) ∧
      (¬ ((i : ℚ) / (bufferLength : ℚ)) * (sampleRate / 2) < 150 → dataArray i = 0)) :
    (AutoMaskingService.calculateFromData dataArray bufferLength cfg
        sampleRate).noiseVolumes.pink <
      (AutoMaskingService.calculateFromData dataArray bufferLength cfg
        sampleRate).noiseVolumes.brown ∧
    (AutoMaskingService.calculateFromData dataArray bufferLength cfg
        sampleRate).noiseVolumes.pink =
      (AutoMaskingService.calculateFromData dataArray bufferLength cfg
        sampleRate).noiseVolumes.white := by
  obtain ⟨hinv, hcnt⟩ :=
    bands_lowOnly dataArray bufferLength (sampleRate / 2) hdata bufferLength le_rfl
  unfold AutoMaskingService.lowOnlyInv at hinv
  have hcount := hcnt hn
  have hlow : (AutoMaskingService.computeLevels dataArray bufferLength sampleRate).low
      = 200 := by
    simp only [AutoMaskingService.computeLevels, AutoMaskingService.bandLevel]
    rw [if_pos (by omega), hinv.1]
    exact mul_div_cancel_right₀ 200 (Nat.cast_ne_zero.mpr (by omega))
  have hmidLow : (AutoMaskingService.computeLevels dataArray bufferLength
      sampleRate).midLow = 0 := by
    simp only [AutoMaskingService.computeLevels, AutoMaskingService.bandLevel]
    split_ifs
    · rw [hinv.2.1, zero_div]
    · rfl
  have hmid : (AutoMaskingService.computeLevels dataArray bufferLength sampleRate).mid
      = 0 := by
    simp only [AutoMaskingService.computeLevels, AutoMaskingService.bandLevel]
    split_ifs
    · rw [hinv.2.2.1, zero_div]
    · rfl
  have hmidHigh : (AutoMaskingService.computeLevels dataArray bufferLength
      sampleRate).midHigh = 0 := by
    simp only [AutoMaskingService.computeLevels, AutoMaskingService.bandLevel]
    split_ifs
    · rw [hinv.2.2.2.1, zero_div]
    · rfl
  have hhigh : (AutoMaskingService.computeLevels dataArray bufferLength sampleRate).high
      = 0 := by
    simp only [AutoMaskingService.computeLevels, AutoMaskingService.bandLevel]
    split_ifs
    · rw [hinv.2.2.2.2, zero_div]
    · rfl
  constructor
  · simp only [AutoMaskingService.calculateFromData, hlow, hmidLow, hmid, hmidHigh, hhigh]
    norm_num [AutoMaskingService.normalize, min_def]
  · simp only [AutoMaskingService.calculateFromData, hlow, hmidLow, hmid, hmidHigh, hhigh]
    norm_num [AutoMaskingService.normalize]

/-- Witness for C1 at a concrete 4-bin frame (48 kHz): only bin 0 lies below
150 Hz and it is at level 200. -/
theorem calculateFromData_lowBand200_witness :
    (AutoMaskingService.calculateFromData lowOnlyFrame 4 neutralMaskConfig
        48000).noiseVolumes.pink <
      (AutoMaskingService.calculateFromData lowOnlyFrame 4 neutralMaskConfig
        48000).noiseVolumes.brown ∧
    (AutoMaskingService.calculateFromData lowOnlyFrame 4 neutralMaskConfig
        48000).noiseVolumes.pink =
      (AutoMaskingService.calculateFromData lowOnlyFrame 4 neutralMaskConfig
        48000).noiseVolumes.white :=
  calculateFromData_lowBand200_brown_dominates lowOnlyFrame 4 neutralMaskConfig 48000
    (by norm_num)
    (by
      intro i hi
      interval_cases i <;> norm_num [lowOnlyFrame])

/-- Counterexample to C1 as stated: on the 4-bin frame with all energy in
bin 0 at level 200, brown is 1 but pink and white are both exactly the 0.1
floor, so `pink > white` fails. -/
theorem calculateFromData_pink_not_gt_white :
    (AutoMaskingService.calculateFromData lowOnlyFrame 4 neutralMaskConfig
        48000).noiseVolumes.brown = 1 ∧
    (AutoMaskingService.calculateFromData lowOnlyFrame 4 neutralMaskConfig
        48000).noiseVolumes.pink = 0.1 ∧
    (AutoMaskingService.calculateFromData lowOnlyFrame 4 neutralMaskConfig
        48000).noiseVolumes.white = 0.1 ∧
    ¬ ((AutoMaskingService.calculateFromData lowOnlyFrame 4 neutralMaskConfig
          48000).noiseVolumes.pink >
        (AutoMaskingService.calculateFromData lowOnlyFrame 4 neutralMaskConfig
          48000).noiseVolumes.white) := by
  refine ⟨?_, ?_, ?_, ?_⟩ <;>
    norm_num [AutoMaskingService.calculateFromData, AutoMaskingService.computeLevels,
      AutoMaskingService.accumBin, AutoMaskingService.bandsInit, AutoMaskingService.bandLevel,
      AutoMaskingService.normalize, lowOnlyFrame, neutralMaskConfig, List.range_succ,
      min_def]

/-- C6 (amended): every coloring filter's two-pass output equals one pass
over the doubled white source keeping the second half; the blue fill obeys
the circular first-difference rule at every index (including the loop
boundary), and the violet fill obeys the circular second-difference rule at
every index on buffers of length at least 2 (on a length-1 buffer the violet
boundary sample deviates from the circular rule). -/
theorem noiseFills_twoPass_circular_forms (w : List ℚ) :
    NoiseGenerator.fillPinkCircular w =
      NoiseGenerator.concatSecondHalf NoiseGenerator.pinkStep NoiseGenerator.pinkInit w ∧
    NoiseGenerator.fillBrownCircular w =
      NoiseGenerator.concatSecondHalf NoiseGenerator.brownStep 0.0 w ∧
    NoiseGenerator.fillBlueCircular w =
      NoiseGenerator.concatSecondHalf NoiseGenerator.blueStep 0 w ∧
    NoiseGenerator.fillVioletCircular w =
      NoiseGenerator.concatSecondHalf NoiseGenerator.violetStep (0, 0) w ∧
    (∀ i < w.length, (NoiseGenerator.fillBlueCircular w).getD i 0 =
      0.5 * (w.getD i 0 - w.getD ((i + w.length - 1) % w.length) 0)) ∧
    (2 ≤ w.length → ∀ i < w.length, (NoiseGenerator.fillVioletCircular w).getD i 0 =
      0.35 * (w.getD i 0 - 2 * w.getD ((i + w.length - 1) % w.length) 0
        + w.getD ((i + w.length - 2) % w.length) 0)) :=
  ⟨twoPass_eq_concatSecondHalf NoiseGenerator.pinkStep NoiseGenerator.pinkInit w,
   twoPass_eq_concatSecondHalf NoiseGenerator.brownStep 0.0 w,
   twoPass_eq_concatSecondHalf NoiseGenerator.blueStep 0 w,
   twoPass_eq_concatSecondHalf NoiseGenerator.violetStep (0, 0) w,
   fun i hi => fillBlue_getD w i hi,
   fun h2 i hi => fillViolet_getD w h2 i hi⟩

/-- Witness for C6 on the buffer `[1, 2, 3]`: blue at the loop boundary and
violet at index 1 follow the circular rules. -/
theorem noiseFills_twoPass_circular_forms_witness :
    (NoiseGenerator.fillBlueCircular [1, 2, 3]).getD 0 0 =
      0.5 * (List.getD [(1 : ℚ), 2, 3] 0 0 -
        List.getD [(1 : ℚ), 2, 3] ((0 + List.length [(1 : ℚ), 2, 3] - 1) %
          List.length [(1 : ℚ), 2, 3]) 0) ∧
    (NoiseGenerator.fillVioletCircular [1, 2, 3]).getD 1 0 =
      0.35 * (List.getD [(1 : ℚ), 2, 3] 1 0 -
        2 * List.getD [(1 : ℚ), 2, 3] ((1 + List.length [(1 : ℚ), 2, 3] - 1) %
          List.length [(1 : ℚ), 2, 3]) 0 +
        List.getD [(1 : ℚ), 2, 3] ((1 + List.length [(1 : ℚ), 2, 3] - 2) %
          List.length [(1 : ℚ), 2, 3]) 0) := by
  have h := noiseFills_twoPass_circular_forms [1, 2, 3]
  exact ⟨h.2.2.2.2.1 0 (by norm_num), h.2.2.2.2.2 (by norm_num) 1 (by norm_num)⟩

/-- Counterexample to C6 as stated: on the single-sample source `[1]` the
violet fill's boundary sample is −0.35 while the claimed circular
second-difference rule gives 0. -/
theorem fillViolet_single_sample_breaks_circular_form :
    (NoiseGenerator.fillVioletCircular [1]).getD 0 0 = -0.35 ∧
    (0.35 : ℚ) * (List.getD [(1 : ℚ)] 0 0 -
      2 * List.getD [(1 : ℚ)] ((0 + 1 - 1) % 1) 0 +
      List.getD [(1 : ℚ)] ((0 + 1 - 2) % 1) 0) = 0 := by
  constructor
  · norm_num [NoiseGenerator.fillVioletCircular, NoiseGenerator.twoPass, runFilter,
      NoiseGenerator.violetStep]
  · norm_num

/-- C7 (amended): for every duration and sample rate, every generated noise
buffer is mono with exactly `sampleRate * duration` samples; for the white
and blue colors every sample lies in [−1, 1] whenever the white source does
(the brown, pink and violet filters do not keep this bound). -/
theorem createNoiseBuffer_length_and_white_blue_bounds
    (duration sampleRate : ℕ) (white : List ℚ)
    (hlen : white.length = NoiseGenerator.bufferSize sampleRate duration)
    (hrange : ∀ x ∈ white, -1 ≤ x ∧ x ≤ 1) :
    (∀ type, (NoiseGenerator.createNoiseBuffer type white).length =
      sampleRate * duration) ∧
    (∀ x ∈ NoiseGenerator.createNoiseBuffer NoiseGenerator.NoiseType.white white,
      -1 ≤ x ∧ x ≤ 1) ∧
    (∀ x ∈ NoiseGenerator.createNoiseBuffer NoiseGenerator.NoiseType.blue white,
      -1 ≤ x ∧ x ≤ 1) := by
  refine ⟨?_, ?_, ?_⟩
  · intro type
    rw [createNoiseBuffer_length, hlen]
    rfl
  · intro x hx
    exact hrange x hx
  · intro x hx
    have hout : NoiseGenerator.createNoiseBuffer NoiseGenerator.NoiseType.blue white =
        NoiseGenerator.blueOut (white.getLastD 0) white := by
      simp [NoiseGenerator.createNoiseBuffer, NoiseGenerator.fillBlueCircular,
        NoiseGenerator.twoPass, runFilter_blueStep]
    rw [hout] at hx
    have hs : -1 ≤ white.getLastD 0 ∧ white.getLastD 0 ≤ 1 := by
      rcases getLastD_mem_or_default white 0 with hm | he
      · exact hrange _ hm
      · rw [he]
        norm_num
    exact blueOut_bounded _ _ hs hrange x hx

/-- Witness for C7 on a 2-sample white source at sample rate 2 and duration
1: the blue buffer has 2 samples and its first sample 0.5 is in bounds. -/
theorem createNoiseBuffer_bounds_witness :
    (NoiseGenerator.createNoiseBuffer NoiseGenerator.NoiseType.blue
      [(0.5 : ℚ), -0.5]).length = 2 * 1 ∧
    (-1 ≤ (0.5 : ℚ) ∧ (0.5 : ℚ) ≤ 1) := by
  have h := createNoiseBuffer_length_and_white_blue_bounds 1 2 [(0.5 : ℚ), -0.5]
    (by norm_num [NoiseGenerator.bufferSize])
    (by
      intro x hx
      simp only [List.mem_cons, List.not_mem_nil, or_false] at hx
      rcases hx with rfl | rfl <;> norm_num)
  exact ⟨h.1 NoiseGenerator.NoiseType.blue,
    h.2.2 0.5 (by
      norm_num [NoiseGenerator.createNoiseBuffer, NoiseGenerator.fillBlueCircular,
        NoiseGenerator.twoPass, runFilter, NoiseGenerator.blueStep])⟩

set_option maxRecDepth 16384 in
/-- Counterexample to C7 as stated: brown, pink and violet buffers can
contain samples above 1 even though every white-source sample lies in
[−1, 1] (here constant 0.9, and for violet an alternating ±0.9). -/
theorem createNoiseBuffer_samples_exceed_one :
    (NoiseGenerator.createNoiseBuffer NoiseGenerator.NoiseType.brown
        (List.replicate 12 (0.9 : ℚ))).getD 11 0 > 1 ∧
    (NoiseGenerator.createNoiseBuffer NoiseGenerator.NoiseType.pink
        (List.replicate 20 (0.9 : ℚ))).getD 19 0 > 1 ∧
    (NoiseGenerator.createNoiseBuffer NoiseGenerator.NoiseType.violet
        [(0.9 : ℚ), -0.9, 0.9]).getD 2 0 > 1 := by
  refine ⟨?_, ?_, ?_⟩
  · norm_num [NoiseGenerator.createNoiseBuffer, NoiseGenerator.fillBrownCircular,
      NoiseGenerator.twoPass, runFilter, NoiseGenerator.brownStep, List.replicate]
  · norm_num [NoiseGenerator.createNoiseBuffer, NoiseGenerator.fillPinkCircular,
      NoiseGenerator.twoPass, runFilter, NoiseGenerator.pinkStep, NoiseGenerator.pinkInit,
      List.replicate]
  · norm_num [NoiseGenerator.createNoiseBuffer, NoiseGenerator.fillVioletCircular,
      NoiseGenerator.twoPass, runFilter, NoiseGenerator.violetStep]

/-- C4: from the reset state, a run of frames whose friction metric stays
above the effective threshold yields `null` on every call except the 12th
(0-based index 11), which emits the one friction event; later above-threshold
calls stay `null` (sustaining).  Any below-threshold call returns `null` and
resets the detector to its initial state (counter 0, flag cleared), so a new
event again needs 12 consecutive above-threshold calls. -/
theorem frictionDetect_twelve_frame_hysteresis
    (config : Option DetectionConfig) (frames : List (SpectralFeatures × ℚ))
    (habove : ∀ fr ∈ frames,
      FrictionDetector.frictionEnergy fr.1 >
        effectiveThreshold
          ((config.bind DetectionConfig.frictionThreshold).getD
            FrictionDetector.BASE_ENERGY_THRESHOLD)
          ((config.map DetectionConfig.frictionSensitivity).getD 1.0)) :
    (∀ i < frames.length,
      (((FrictionDetector.detectRun FrictionDetector.initState config frames).getD i
          none).isSome = true ↔ i = 11)) ∧
    (∀ (s : FrictionState) (f : SpectralFeatures) (t : ℚ),
      ¬ FrictionDetector.frictionEnergy f >
        effectiveThreshold
          ((config.bind DetectionConfig.frictionThreshold).getD
            FrictionDetector.BASE_ENERGY_THRESHOLD)
          ((config.map DetectionConfig.frictionSensitivity).getD 1.0) →
      FrictionDetector.detect s f t config = (none, FrictionDetector.initState)) := by
  constructor
  · intro i hi
    have hchar := FrictionDetector.detectRun_above_char config frames habove 0 false
      (by simp) i hi
    rw [FrictionDetector.initState]
    rw [hchar]
    omega
  · intro s f t h
    exact FrictionDetector.detect_below s f t config h

/-- Witness for C4: thirteen constant above-threshold frames emit exactly at
index 11, and a below-threshold frame resets a mid-run state. -/
theorem frictionDetect_twelve_frame_hysteresis_witness :
    ((FrictionDetector.detectRun FrictionDetector.initState none
        (List.replicate 13 (sustainedFeatures, (0 : ℚ)))).getD 11 none).isSome = true ∧
    ((FrictionDetector.detectRun FrictionDetector.initState none
        (List.replicate 13 (sustainedFeatures, (0 : ℚ)))).getD 10 none).isSome = false ∧
    ((FrictionDetector.detectRun FrictionDetector.initState none
        (List.replicate 13 (sustainedFeatures, (0 : ℚ)))).getD 12 none).isSome = false ∧
    FrictionDetector.detect ⟨7, true⟩ silentFeatures 0 none =
      (none, FrictionDetector.initState) := by
  have h := frictionDetect_twelve_frame_hysteresis none
    (List.replicate 13 (sustainedFeatures, (0 : ℚ)))
    (by
      intro fr hfr
      rw [List.eq_of_mem_replicate hfr]
      norm_num [FrictionDetector.frictionEnergy, sustainedFeatures, effectiveThreshold,
        FrictionDetector.BASE_ENERGY_THRESHOLD])
  refine ⟨(h.1 11 (by simp)).mpr rfl, ?_, ?_, ?_⟩
  · rw [Bool.eq_false_iff]
    intro hx
    exact absurd ((h.1 10 (by simp)).mp hx) (by omega)
  · rw [Bool.eq_false_iff]
    intro hx
    exact absurd ((h.1 12 (by simp)).mp hx) (by omega)
  · exact h.2 ⟨7, true⟩ silentFeatures 0
      (by norm_num [FrictionDetector.frictionEnergy, silentFeatures, effectiveThreshold,
        FrictionDetector.BASE_ENERGY_THRESHOLD])

/-- C5: once the footstep detector fires at timestamp `t`, its recorded
last-detection time is `t`; every later call strictly inside the 300 ms
cooldown returns `null` without touching the state, and any call at or
after `t + 300` with triggering features (flux and low-band energy above
their effective thresholds) fires again. -/
theorem footstepDetect_cooldown_blocks_then_allows
    (s : FootstepState) (features : SpectralFeatures) (t : ℚ)
    (config : Option DetectionConfig) (e : NoiseEvent) (s₁ : FootstepState)
    (hfire : FootstepDetector.detect s features t config = (some e, s₁)) :
    s₁.lastDetectionTime = t ∧
    (∀ (f' : SpectralFeatures) (t' : ℚ), t' - t < 300 →
      FootstepDetector.detect s₁ f' t' config = (none, s₁)) ∧
    (∀ (f' : SpectralFeatures) (t' : ℚ), t + 300 ≤ t' →
      f'.spectralFlux > effectiveThreshold FootstepDetector.BASE_FLUX_THRESHOLD
        ((config.map DetectionConfig.footstepSensitivity).getD 1.0) →
      f'.lowBandEnergy > effectiveThreshold
        ((config.bind DetectionConfig.footstepThreshold).getD
          FootstepDetector.BASE_LOW_ENERGY_THRESHOLD)
        ((config.map DetectionConfig.footstepSensitivity).getD 1.0) →
      (FootstepDetector.detect s₁ f' t' config).1.isSome = true) := by
  have hlast : s₁.lastDetectionTime = t := by
    simp only [FootstepDetector.detect] at hfire
    split at hfire
    · exact absurd hfire (by simp)
    · split at hfire
      · injection hfire with h1 h2
        rw [← h2]
      · exact absurd hfire (by simp)
  refine ⟨hlast, ?_, ?_⟩
  · intro f' t' hlt
    have hc : t' - s₁.lastDetectionTime < FootstepDetector.cooldownMs := by
      rw [hlast]
      simpa [FootstepDetector.cooldownMs] using hlt
    simp only [FootstepDetector.detect]
    rw [if_pos hc]
  · intro f' t' hge hflux henergy
    have hc : ¬ t' - s₁.lastDetectionTime < FootstepDetector.cooldownMs := by
      rw [hlast]
      simp only [FootstepDetector.cooldownMs, not_lt]
      linarith
    simp only [FootstepDetector.detect]
    rw [if_neg hc, if_pos ⟨hflux, henergy⟩]
    rfl

/-- Witness for C5: a trigger at t = 1000 ms blocks an identical input at
t = 1200 ms and lets an identical input at t = 1400 ms fire. -/
theorem footstepDetect_cooldown_witness :
    FootstepDetector.detect { lastDetectionTime := 1000 } impulseFeatures 1200 none =
      (none, { lastDetectionTime := 1000 }) ∧
    (FootstepDetector.detect { lastDetectionTime := 1000 } impulseFeatures 1400 none).1.isSome
      = true := by
  have h := footstepDetect_cooldown_blocks_then_allows FootstepDetector.initState
      impulseFeatures 1000 none
      { type := .footstep, timestamp := 1000, confidence := 1
        frequencyRange := { min := 20, max := 300 }
        details := some { energy := 1000, spectralFlux := some 1000 } }
      { lastDetectionTime := 1000 }
      (by norm_num [FootstepDetector.detect, FootstepDetector.initState,
        FootstepDetector.cooldownMs, FootstepDetector.BASE_FLUX_THRESHOLD,
        FootstepDetector.BASE_LOW_ENERGY_THRESHOLD, impulseFeatures, effectiveThreshold,
        min_def])
  exact ⟨h.2.1 impulseFeatures 1200 (by norm_num),
    h.2.2 impulseFeatures 1400 (by norm_num)
      (by norm_num [impulseFeatures, effectiveThreshold, FootstepDetector.BASE_FLUX_THRESHOLD])
      (by norm_num [impulseFeatures, effectiveThreshold,
        FootstepDetector.BASE_LOW_ENERGY_THRESHOLD])⟩

/-- C9: a generic event is emitted in a frame only when the friction
detector is not sustaining (its `isDetecting` flag after this frame's call
is false) and neither the footstep detector nor the friction detector fired
in that frame. -/
theorem analyzeFrame_generic_only_when_idle
    (st : AnalysisState) (features : SpectralFeatures) (now : ℚ)
    (config : Option DetectionConfig) (e : NoiseEvent)
    (he : e ∈ (analyzeFrame st features now config).1)
    (ht : e.type = .generic) :
    (FootstepDetector.detect st.footstep features now config).1 = none ∧
    (FrictionDetector.detect st.friction features now config).1 = none ∧
    (FrictionDetector.detect st.friction features now config).2.isDetecting = false := by
  simp only [analyzeFrame] at he
  split at he
  case isTrue h =>
    obtain ⟨hflag, hfr, hfs⟩ := h
    obtain ⟨ha, hb⟩ := resolveConflict_none_none hfs hfr
    exact ⟨ha, hb, hflag⟩
  case isFalse h =>
    rw [List.mem_append] at he
    rcases he with hm | hm
    · rw [Option.mem_toList, Option.mem_def] at hm
      have htype := FootstepDetector.detect_fst_type_footstep (resolveConflict_fst_some hm)
      rw [htype] at ht
      exact absurd ht (by decide)
    · rw [Option.mem_toList, Option.mem_def] at hm
      have htype := FrictionDetector.detect_fst_type_friction (resolveConflict_snd_some hm)
      rw [htype] at ht
      exact absurd ht (by decide)

/-- Witness for C9: on a loud high-frequency transient from reset states the
frame emits one generic event, and indeed neither specific detector fired
and friction is not sustaining. -/
theorem analyzeFrame_generic_only_when_idle_witness :
    (FootstepDetector.detect FootstepDetector.initState genericOnlyFeatures 1000 none).1
      = none ∧
    (FrictionDetector.detect FrictionDetector.initState genericOnlyFeatures 1000 none).1
      = none ∧
    (FrictionDetector.detect FrictionDetector.initState genericOnlyFeatures 1000
      none).2.isDetecting = false := by
  have h := analyzeFrame_generic_only_when_idle
      ⟨FootstepDetector.initState, FrictionDetector.initState, GeneralDetector.initState⟩
      genericOnlyFeatures 1000 none
      { type := .generic, timestamp := 1000, confidence := 1
        frequencyRange := { min := 4800, max := 5200 }
        details := some { energy := 100000, spectralFlux := none } }
      (by norm_num [analyzeFrame, resolveConflict, FootstepDetector.detect,
        FrictionDetector.detect, GeneralDetector.detect, FootstepDetector.initState,
        FrictionDetector.initState, GeneralDetector.initState, FootstepDetector.cooldownMs,
        GeneralDetector.cooldownMs, FootstepDetector.BASE_FLUX_THRESHOLD,
        FootstepDetector.BASE_LOW_ENERGY_THRESHOLD, FrictionDetector.BASE_ENERGY_THRESHOLD,
        FrictionDetector.frictionEnergy, FrictionDetector.FRAMES_THRESHOLD,
        GeneralDetector.BASE_FLUX_THRESHOLD, GeneralDetector.BASE_ENERGY_THRESHOLD,
        genericOnlyFeatures, effectiveThreshold, min_def])
      rfl
  exact h

end Silentium
